import Mathlib

/-!
Shallow embedding of `src/app.py` (ajitashwath/pdf-query): the lazy
initialization of the four global handles, PDF text extraction, the
chunking/ingestion pipeline and the query pipeline, together with the
`/health` endpoint.  External services (Astra DB, OpenAI, the Cassandra
vector store) are modelled by an environment recording whether each
construction step succeeds, and by oracle functions for the generative
query and the similarity search.  Machine effects (logging, the HTTP
layer, file handling) are outside the modelled core, matching the spec's
scope.
-/

namespace PdfQuery

set_option maxRecDepth 8000

/-- The four module-level handles of `app.py` (lines 29-32):
`vector_store`, `vector_index`, `llm`, `embedding`.  Each is `None`
until an initialization attempt assigns it; the handle value itself is
irrelevant to the control flow, so it is modelled as `Unit`. -/
structure AppState where
  vector_store : Option Unit
  vector_index : Option Unit
  llm : Option Unit
  embedding : Option Unit
deriving DecidableEq, Repr, Fintype

/-- The state of the process before any initialization attempt: all four
globals are `None` (lines 29-32). -/
def initialState : AppState := ⟨none, none, none, none⟩

/-- Outcome of each externally-effectful step of `initialize_components`
(lines 34-59): presence of the three environment variables, and whether
each of `cassio.init`, `OpenAI()`, `OpenAIEmbeddings()`, `Cassandra(...)`
and `VectorStoreIndexWrapper(...)` raises. -/
structure InitEnv where
  configOk : Bool
  cassioOk : Bool
  llmOk : Bool
  embeddingOk : Bool
  cassandraOk : Bool
  wrapperOk : Bool
deriving DecidableEq, Repr, Fintype

/-- Embedding of `initialize_components` (lines 34-59).  The globals are
assigned one at a time in source order (`llm`, `embedding`,
`vector_store`, `vector_index`); a raising step aborts via the
`except` handler, returning `False` and keeping every assignment already
made.  Missing environment variables return `False` before any
assignment. -/
def initialize_components (s : AppState) (env : InitEnv) : Bool × AppState :=
  if !env.configOk then (false, s)
  else if !env.cassioOk then (false, s)
  else if !env.llmOk then (false, s)
  else
    let s1 := { s with llm := some () }
    if !env.embeddingOk then (false, s1)
    else
      let s2 := { s1 with embedding := some () }
      if !env.cassandraOk then (false, s2)
      else
        let s3 := { s2 with vector_store := some () }
        if !env.wrapperOk then (false, s3)
        else (true, { s3 with vector_index := some () })

/-- The three booleans reported by `health_check` (lines 195-205):
`vector_store`, `llm` and `embedding` compared against `None`.
(`vector_index` is not reported.) -/
structure HealthComponents where
  vector_store : Bool
  llm : Bool
  embedding : Bool
deriving DecidableEq, Repr

/-- Embedding of the `/health` endpoint body (lines 195-205). -/
def health_check (s : AppState) : HealthComponents :=
  ⟨s.vector_store.isSome, s.llm.isSome, s.embedding.isSome⟩

/-- The spec's `Ready` state: all four handles are assigned.  In the
code this state is implicit in the `None`-ness of the globals. -/
def Ready (s : AppState) : Prop :=
  s.vector_store.isSome = true ∧ s.vector_index.isSome = true ∧
    s.llm.isSome = true ∧ s.embedding.isSome = true

instance (s : AppState) : Decidable (Ready s) := by
  unfold Ready; infer_instance

/-- Assignment-order invariant of the globals: `vector_index` is only
ever assigned after `vector_store`, which is only assigned after
`embedding`, which is only assigned after `llm` (source order of
lines 43-54). -/
def HandleChain (s : AppState) : Prop :=
  (s.vector_index.isSome = true → s.vector_store.isSome = true) ∧
    (s.vector_store.isSome = true → s.embedding.isSome = true) ∧
    (s.embedding.isSome = true → s.llm.isSome = true)

instance (s : AppState) : Decidable (HandleChain s) := by
  unfold HandleChain; infer_instance

/-- Python's `str.strip()`: removes leading and trailing whitespace.
Defined by structural recursion on the character data so that concrete
instances compute. -/
def pyStrip (s : String) : String :=
  ⟨((s.data.dropWhile Char.isWhitespace).reverse.dropWhile Char.isWhitespace).reverse⟩

/-- One page of a parsed PDF, as seen by the loop of
`extract_text_from_pdf` (lines 66-69): `page.extract_text()` either
raises (`Except.error ()`) or returns a string, possibly empty (the
falsy check `if content:` skips empty strings, which is the same as
appending them). -/
abbrev Page := Except Unit String

/-- A PDF byte stream as seen by `extract_text_from_pdf`: `none` when
`PdfReader` cannot parse it at all (line 64 raises), otherwise the list
of its pages in order. -/
abbrev PdfDoc := Option (List Page)

/-- Text of one page once extraction succeeded: a raising page has no
text; this is only meaningful on lists where no page raises. -/
def pageVal : Page → String
  | Except.ok s => s
  | Except.error _ => ""

/-- Runs the page loop of lines 66-69: stops at the first raising page
(the exception propagates to the `except` handler), otherwise collects
every page's string in order. -/
def collectPages : List Page → Option (List String)
  | [] => some []
  | Except.error _ :: _ => none
  | Except.ok s :: rest => (collectPages rest).map (s :: ·)

/-- Embedding of `extract_text_from_pdf` (lines 62-79).  Unparseable
input returns `None`; a raising page returns `None` (caught by the
`except`); otherwise the page texts are concatenated in order with no
separator, and `None` is returned when the concatenation is
whitespace-only (lines 71-73), the concatenation itself otherwise. -/
def extract_text_from_pdf (doc : PdfDoc) : Option String :=
  match doc with
  | none => none
  | some pages =>
    match collectPages pages with
    | none => none
    | some contents =>
      let raw := String.join contents
      if pyStrip raw = "" then none else some raw

/-- Modelled from the spec: the chunker (`CharacterTextSplitter` of the
langchain library, configured at lines 88-93) is not part of this
repository; §4.3 of the spec defines its algorithm.  This helper lists,
in increasing order, every position `p` (counted from the given base)
such that the character at index `p - 1` of the scanned text is the
separator: a chunk ending at such a `p` ends right at a separator. -/
def sepEndsFrom (sep : Char) : List Char → Nat → List Nat
  | [], _ => []
  | c :: rest, i =>
    if c = sep then (i + 1) :: sepEndsFrom sep rest (i + 1)
    else sepEndsFrom sep rest (i + 1)

/-- Modelled from the spec: largest position `p` with `start < p ≤ hi`
at which a chunk could end right after a separator — the nearest
separator preceding the window's end (§4.3). -/
def lastSepWithin (text : List Char) (sep : Char) (start hi : Nat) : Option Nat :=
  ((sepEndsFrom sep text 0).filter fun p =>
    decide (start < p) && decide (p ≤ hi)).getLast?

/-- Modelled from the spec: one greedy chunking step after another
(§4.3).  A chunk starting at `start` accumulates up to `size`
characters, preferring to end at the nearest preceding separator within
the window when the window does not already reach the end of the text;
the next chunk begins `overlap` characters before the previous chunk's
end.  Chunks are returned as `[start, stop)` index intervals.  `fuel`
only bounds the recursion; `split` supplies enough of it. -/
def splitGo (text : List Char) (size overlap : Nat) (sep : Char) :
    Nat → Nat → List (Nat × Nat)
  | 0, _ => []
  | fuel + 1, start =>
    if text.length ≤ start then []
    else
      let hi := min (start + size) text.length
      let stop :=
        if hi = text.length then text.length
        else
          match lastSepWithin text sep start hi with
          | some p => p
          | none => hi
      if text.length ≤ stop then [(start, text.length)]
      else (start, stop) :: splitGo text size overlap sep fuel (stop - overlap)

/-- Modelled from the spec: `Chunker.split` (§4.3), producing the chunk
intervals of `text` in document order; the empty input produces zero
chunks. -/
def split (text : List Char) (size overlap : Nat) (sep : Char) : List (Nat × Nat) :=
  splitGo text size overlap sep (text.length + 1) 0

/-- Text of one chunk interval. -/
def chunkText (text : List Char) (c : Nat × Nat) : List Char :=
  (text.drop c.1).take (c.2 - c.1)

/-- External calls visible at the modelled boundary: an invocation of
`initialize_components` (which contacts Astra DB and OpenAI), the
composite retrieval+generation call `vector_index.query`, the
`similarity_search_with_score` call and the `add_texts` call. -/
inductive ExtCall where
  | initAttempt
  | generate
  | search
  | addTexts
deriving DecidableEq, Repr

/-- Guard of `process_and_store_text` (lines 83-86): initialization is
re-run only when `vector_store` is `None`, and its result (success flag,
new state, trace of external calls) is threaded through. -/
def ensureGuardP (s : AppState) (env : InitEnv) : Bool × AppState × List ExtCall :=
  if s.vector_store = none then
    let r := initialize_components s env
    (r.1, r.2, [ExtCall.initAttempt])
  else (true, s, [])

/-- Embedding of `process_and_store_text` (lines 81-105), returning the
Python return value (`None` or the chunk count), the resulting global
state, and the trace of external calls made.  Chunking uses the splitter
with `separator="\n"`, `chunk_size=800`, `chunk_overlap=200`
(lines 88-95); an empty chunk list and the defensive re-check of
`vector_store` both return `None` (lines 96-102). -/
def process_and_store_text (s : AppState) (env : InitEnv) (text : List Char) :
    (Option Nat × AppState) × List ExtCall :=
  match ensureGuardP s env with
  | (ok, s1, tr) =>
    if !ok then ((none, s1), tr)
    else
      let texts := split text 800 200 '\n'
      if texts = [] then ((none, s1), tr)
      else if s1.vector_store = none then ((none, s1), tr)
      else ((some texts.length, s1), tr ++ [ExtCall.addTexts])

/-- Oracles for the two retrieval calls of `query_pdf`: the composite
retrieval+generation `vector_index.query(question, llm=llm)` and the
store's `similarity_search_with_score(question, k)`, the latter
returning `(page_content, score)` pairs in the store's relevance
order. -/
structure QueryEnv where
  init : InitEnv
  queryFn : String → String
  search : String → Nat → List (String × Int)

/-- Responses of the `/query` endpoint relevant to the modelled core:
the two `System not initialized` errors (lines 155, 157), the missing-
or empty-question errors (lines 161, 165), and the success payload of
lines 185-189 with its answer and `relevant_docs` list of
`(score, content)` pairs. -/
inductive QResp where
  | notInit
  | noQuestion
  | emptyQuestion
  | success (answer : String) (docs : List (Int × String))
deriving DecidableEq, Repr

/-- Display truncation of one retrieved chunk (line 180):
`doc.page_content[:300] + "..."` when its length exceeds 300, the
content unchanged otherwise. -/
def truncateContent (c : String) : String :=
  if 300 < c.length then String.mk (c.data.take 300) ++ "..." else c

/-- Guard of `query_pdf` (lines 153-155): initialization is re-run when
either `vector_store` or `vector_index` is `None`. -/
def ensureGuardQ (s : AppState) (env : InitEnv) : Bool × AppState × List ExtCall :=
  if s.vector_store = none ∨ s.vector_index = none then
    let r := initialize_components s env
    (r.1, r.2, [ExtCall.initAttempt])
  else (true, s, [])

/-- Embedding of `query_pdf` (lines 149-193).  The request is `none`
when no JSON body or no `question` field is present, `some q` when the
question string `q` is supplied.  Returns the response, the resulting
global state and the trace of external calls.  The guard of lines
153-157 runs before the question is examined; the question is trimmed
(line 163) before both retrieval calls; the answer is trimmed (line
170); the `relevant_docs` are the top-4 search results in order, each
truncated for display (lines 173-181). -/
def query_pdf (s : AppState) (env : QueryEnv) (req : Option String) :
    (QResp × AppState) × List ExtCall :=
  match ensureGuardQ s env.init with
  | (ok, s1, tr) =>
    if !ok then ((QResp.notInit, s1), tr)
    else if s1.vector_index = none ∨ s1.vector_store = none then
      ((QResp.notInit, s1), tr)
    else
      match req with
      | none => ((QResp.noQuestion, s1), tr)
      | some q =>
        let question := pyStrip q
        if question = "" then ((QResp.emptyQuestion, s1), tr)
        else
          let answer := pyStrip (env.queryFn question)
          let docs := env.search question 4
          ((QResp.success answer (docs.map fun d => (d.2, truncateContent d.1)), s1),
            tr ++ [ExtCall.generate, ExtCall.search])

/-! Concrete environments and states used to instantiate the theorems. -/

/-- Environment in which every initialization step succeeds. -/
def envAllOk : InitEnv := ⟨true, true, true, true, true, true⟩

/-- Environment in which an environment variable is missing: the line 38
check fails before anything is assigned. -/
def envConfigMissing : InitEnv := ⟨false, true, true, true, true, true⟩

/-- Environment in which everything up to and including the two OpenAI
constructors succeeds but `Cassandra(...)` (line 47) raises. -/
def envCassandraFails : InitEnv := ⟨true, true, true, true, false, true⟩

/-- Environment in which everything up to and including `Cassandra(...)`
succeeds but `VectorStoreIndexWrapper(...)` (line 54) raises. -/
def envWrapperFails : InitEnv := ⟨true, true, true, true, true, false⟩

/-- The state left behind by a `envWrapperFails` attempt from the fresh
process state: `llm`, `embedding` and `vector_store` assigned,
`vector_index` still `None`, though the attempt reported failure. -/
def sPartialFailed : AppState := (initialize_components initialState envWrapperFails).2

/-- The state after a fully successful initialization: all four handles
assigned. -/
def readyState : AppState := ⟨some (), some (), some (), some ()⟩

/-- Query environment whose initialization always succeeds and whose
oracles return fixed trivial values. -/
def qenvAllOk : QueryEnv := ⟨envAllOk, fun _ => "", fun _ _ => []⟩

/-- Query environment with a missing configuration variable. -/
def qenvConfigMissing : QueryEnv := ⟨envConfigMissing, fun _ => "", fun _ _ => []⟩

/-- A 301-character chunk text, one character beyond the display
truncation limit of line 180. -/
def longA : String := String.mk (List.replicate 301 'a')

/-- Query environment whose store returns one over-limit chunk and one
short chunk, and whose generative call returns an untrimmed answer. -/
def qenvDocs : QueryEnv :=
  ⟨envAllOk, fun _ => " The answer ", fun _ _ => [(longA, 7), ("short", 3)]⟩

/-! Helper lemmas about the finite-state initialization logic. -/

lemma initialize_components_mono (s : AppState) (env : InitEnv) :
    (s.llm.isSome = true → (initialize_components s env).2.llm.isSome = true) ∧
    (s.embedding.isSome = true → (initialize_components s env).2.embedding.isSome = true) ∧
    (s.vector_store.isSome = true → (initialize_components s env).2.vector_store.isSome = true) ∧
    (s.vector_index.isSome = true → (initialize_components s env).2.vector_index.isSome = true) := by
  revert s env; decide

lemma initialize_components_success_ready (s : AppState) (env : InitEnv)
    (h : (initialize_components s env).1 = true) :
    Ready (initialize_components s env).2 := by
  revert s env; decide

lemma ensureGuardQ_some (s : AppState) (env : InitEnv)
    (h1 : s.vector_store ≠ none) (h2 : s.vector_index ≠ none) :
    ensureGuardQ s env = (true, s, []) := by
  revert s env; decide

lemma ensureGuardP_some (s : AppState) (env : InitEnv)
    (h1 : s.vector_store ≠ none) :
    ensureGuardP s env = (true, s, []) := by
  revert s env; decide

lemma ensureGuardQ_not_ready (s : AppState) (env : InitEnv)
    (h : s.vector_store = none ∨ s.vector_index = none) :
    ensureGuardQ s env =
      ((initialize_components s env).1, (initialize_components s env).2,
        [ExtCall.initAttempt]) := by
  revert s env; decide

lemma ensureGuardP_not_ready (s : AppState) (env : InitEnv)
    (h : s.vector_store = none) :
    ensureGuardP s env =
      ((initialize_components s env).1, (initialize_components s env).2,
        [ExtCall.initAttempt]) := by
  revert s env; decide

/-- Evaluation of `query_pdf` from a `Ready` state: the guard is a
no-op, the state never changes, and the response depends only on the
request and the two oracles. -/
lemma query_pdf_ready_eq (s : AppState) (env : QueryEnv) (req : Option String)
    (hr : Ready s) :
    query_pdf s env req =
      match req with
      | none => ((QResp.noQuestion, s), [])
      | some q =>
        if pyStrip q = "" then ((QResp.emptyQuestion, s), [])
        else
          ((QResp.success (pyStrip (env.queryFn (pyStrip q)))
            ((env.search (pyStrip q) 4).map fun d => (d.2, truncateContent d.1)), s),
            [ExtCall.generate, ExtCall.search]) := by
  obtain ⟨h1, h2, h3, h4⟩ := hr
  have hvs : s.vector_store ≠ none := Option.ne_none_iff_isSome.mpr h1
  have hvi : s.vector_index ≠ none := Option.ne_none_iff_isSome.mpr h2
  unfold query_pdf
  rw [ensureGuardQ_some s env.init hvs hvi]
  cases req with
  | none => simp [hvi, hvs]
  | some q => by_cases hq : pyStrip q = "" <;> simp [hvi, hvs, hq]

/-- Evaluation of `process_and_store_text` when `vector_store` is
already assigned: the guard is a no-op and the state never changes. -/
lemma process_store_some_eq (s : AppState) (env : InitEnv) (text : List Char)
    (hvs : s.vector_store ≠ none) :
    process_and_store_text s env text =
      if split text 800 200 '\n' = [] then ((none, s), [])
      else ((some (split text 800 200 '\n').length, s), [ExtCall.addTexts]) := by
  unfold process_and_store_text
  rw [ensureGuardP_some s env hvs]
  by_cases he : split text 800 200 '\n' = [] <;> simp [he, hvs]

/-- Evaluation of `query_pdf` when at least one of the two checked
handles is missing: the guard runs a full initialization attempt, and
the resulting global state is whatever that attempt produced. -/
lemma query_pdf_not_ready (s : AppState) (env : QueryEnv) (req : Option String)
    (h : s.vector_store = none ∨ s.vector_index = none) :
    (query_pdf s env req).1.2 = (initialize_components s env.init).2 ∧
      ExtCall.initAttempt ∈ (query_pdf s env req).2 := by
  unfold query_pdf
  rw [ensureGuardQ_not_ready s env.init h]
  cases hok : (initialize_components s env.init).1 with
  | false => simp
  | true =>
    obtain ⟨g1, g2, g3, g4⟩ := initialize_components_success_ready s env.init hok
    have gvs : (initialize_components s env.init).2.vector_store ≠ none :=
      Option.ne_none_iff_isSome.mpr g1
    have gvi : (initialize_components s env.init).2.vector_index ≠ none :=
      Option.ne_none_iff_isSome.mpr g2
    cases req with
    | none => simp [gvs, gvi]
    | some q => by_cases hq : pyStrip q = "" <;> simp [gvs, gvi, hq]

/-- Evaluation of `process_and_store_text` when `vector_store` is
missing: the guard runs a full initialization attempt. -/
lemma process_store_not_ready (s : AppState) (env : InitEnv) (text : List Char)
    (h : s.vector_store = none) :
    (process_and_store_text s env text).1.2 = (initialize_components s env).2 ∧
      ExtCall.initAttempt ∈ (process_and_store_text s env text).2 := by
  unfold process_and_store_text
  rw [ensureGuardP_not_ready s env h]
  cases hok : (initialize_components s env).1 with
  | false => simp
  | true =>
    by_cases he : split text 800 200 '\n' = [] <;>
      by_cases hvs : (initialize_components s env).2.vector_store = none <;>
        simp [he, hvs]

/-- A page list in which no page raises collects to exactly the list of
per-page texts. -/
lemma collectPages_all_ok (pages : List Page) (h : ∀ p ∈ pages, p.isOk = true) :
    collectPages pages = some (pages.map pageVal) := by
  induction pages with
  | nil => rfl
  | cons p rest ih =>
    cases p with
    | error e => simpa [Except.isOk, Except.toBool] using h _ (List.mem_cons_self _ _)
    | ok str =>
      simp [collectPages, pageVal, ih fun q hq => h q (List.mem_cons_of_mem _ hq)]

/-- C1, counterexample: when `Cassandra(...)` (line 47) raises after the
two OpenAI constructors succeeded, the attempt reports failure, yet the
already-assigned `llm` and `embedding` handles remain set and are
reported by `health_check` — partial handles are exposed, so the
initialization outcome is not all-or-nothing. -/
theorem C1_counterexample :
    (initialize_components initialState envCassandraFails).1 = false ∧
    (initialize_components initialState envCassandraFails).2.llm = some () ∧
    (initialize_components initialState envCassandraFails).2.embedding = some () ∧
    (initialize_components initialState envCassandraFails).2.vector_store = none ∧
    (initialize_components initialState envCassandraFails).2.vector_index = none ∧
    health_check (initialize_components initialState envCassandraFails).2 =
      ⟨false, true, true⟩ := by decide

/-- C1, amended: a successful attempt assigns all four handles; a
failing attempt keeps every handle assigned before the failing step (no
handle is ever cleared), so those partial handles stay visible; the
assigned handles always form a prefix of the assignment order
`llm`, `embedding`, `vector_store`, `vector_index`. -/
theorem C1_initialization_handles (s : AppState) (env : InitEnv)
    (hc : HandleChain s) :
    ((initialize_components s env).1 = true →
      Ready (initialize_components s env).2) ∧
    HandleChain (initialize_components s env).2 ∧
    (s.llm.isSome = true →
      (initialize_components s env).2.llm.isSome = true) ∧
    (s.embedding.isSome = true →
      (initialize_components s env).2.embedding.isSome = true) ∧
    (s.vector_store.isSome = true →
      (initialize_components s env).2.vector_store.isSome = true) ∧
    (s.vector_index.isSome = true →
      (initialize_components s env).2.vector_index.isSome = true) := by
  revert s env; decide

/-- Witness for C1: from the fresh state, a fully successful attempt
reaches `Ready`. -/
theorem C1_initialization_handles_witness :
    HandleChain initialState ∧ Ready (initialize_components initialState envAllOk).2 :=
  ⟨by decide, (C1_initialization_handles initialState envAllOk (by decide)).1 (by decide)⟩

/-- C2, counterexample: after an attempt in which
`VectorStoreIndexWrapper(...)` (line 54) raised, the attempt reported
failure (state `Failed`) with `vector_store` assigned but `vector_index`
still `None`; a subsequent `process_and_store_text` call does not re-run
initialization (its trace holds no initialization attempt and
`vector_index` stays `None`) and proceeds to store chunks anyway. -/
theorem C2_counterexample :
    (initialize_components initialState envWrapperFails).1 = false ∧
    sPartialFailed.vector_store = some () ∧
    sPartialFailed.vector_index = none ∧
    process_and_store_text sPartialFailed envAllOk (List.replicate 10 'A') =
      ((some 1, sPartialFailed), [ExtCall.addTexts]) := by decide

/-- C2, amended: once all four handles are assigned (`Ready`), both
pipelines leave the state untouched, never attempt initialization and
never regress, and the query guard reports success; `query_pdf` re-runs
the full initialization whenever `vector_store` or `vector_index` is
missing; `process_and_store_text` re-runs it whenever `vector_store` is
missing (but, per the counterexample, not in the failed state where only
`vector_index` is missing). -/
theorem C2_state_machine (s : AppState) (env : QueryEnv) (req : Option String)
    (text : List Char) :
    (Ready s →
      (query_pdf s env req).1.2 = s ∧
      ExtCall.initAttempt ∉ (query_pdf s env req).2 ∧
      (query_pdf s env req).1.1 ≠ QResp.notInit ∧
      (process_and_store_text s env.init text).1.2 = s ∧
      ExtCall.initAttempt ∉ (process_and_store_text s env.init text).2 ∧
      Ready (query_pdf s env req).1.2 ∧
      Ready (process_and_store_text s env.init text).1.2) ∧
    ((s.vector_store = none ∨ s.vector_index = none) →
      (query_pdf s env req).1.2 = (initialize_components s env.init).2 ∧
      ExtCall.initAttempt ∈ (query_pdf s env req).2) ∧
    (s.vector_store = none →
      (process_and_store_text s env.init text).1.2 =
        (initialize_components s env.init).2 ∧
      ExtCall.initAttempt ∈ (process_and_store_text s env.init text).2) := by
  refine ⟨?_, query_pdf_not_ready s env req, process_store_not_ready s env.init text⟩
  intro hr
  have hvs : s.vector_store ≠ none := Option.ne_none_iff_isSome.mpr hr.1
  rw [query_pdf_ready_eq s env req hr, process_store_some_eq s env.init text hvs]
  cases req with
  | none => by_cases he : split text 800 200 '\n' = [] <;> simp [he, hr]
  | some q =>
    by_cases hq : pyStrip q = "" <;>
      by_cases he : split text 800 200 '\n' = [] <;> simp [hq, he, hr]

/-- Witness for C2: the no-op branch at a ready state, and the re-run
branch from the fresh state. -/
theorem C2_state_machine_witness :
    (query_pdf readyState qenvAllOk (some "hi")).1.2 = readyState ∧
    ExtCall.initAttempt ∈ (query_pdf initialState qenvAllOk (some "hi")).2 ∧
    ExtCall.initAttempt ∈
      (process_and_store_text initialState envAllOk (List.replicate 10 'A')).2 :=
  ⟨((C2_state_machine readyState qenvAllOk (some "hi") []).1 (by decide)).1,
   ((C2_state_machine initialState qenvAllOk (some "hi") []).2.1 (by decide)).2,
   ((C2_state_machine initialState ⟨envAllOk, fun _ => "", fun _ _ => []⟩ (some "hi")
      (List.replicate 10 'A')).2.2 (by decide)).2⟩

/-- C3, counterexample: with the process still uninitialized and a
missing configuration, `query_pdf` on the empty question returns the
`System not initialized` error — not the empty-question error — and its
trace shows an initialization attempt (which contacts the external
services) made before the question was ever examined. -/
theorem C3_counterexample :
    query_pdf initialState qenvConfigMissing (some "") =
      ((QResp.notInit, initialState), [ExtCall.initAttempt]) := by decide

/-- C3, amended: only from a `Ready` state does a whitespace-only
question fail with the empty-question error while contacting no external
dependency (empty trace, state untouched); from a non-ready state the
initialization attempt precedes the question check. -/
theorem C3_empty_question (s : AppState) (env : QueryEnv) (q : String)
    (hr : Ready s) (hq : pyStrip q = "") :
    query_pdf s env (some q) = ((QResp.emptyQuestion, s), []) := by
  rw [query_pdf_ready_eq s env (some q) hr]
  simp [hq]

/-- Witness for C3: the three-space question at a ready state. -/
theorem C3_empty_question_witness :
    query_pdf readyState qenvAllOk (some "   ") =
      ((QResp.emptyQuestion, readyState), []) :=
  C3_empty_question readyState qenvAllOk "   " (by decide) (by decide)

/-- C4: on 900 identical characters with no separator, the chunker with
`chunk_size=800`, `overlap=200`, separator newline produces exactly two
chunks: `[0, 800)` of length 800 and `[600, 900)` of length 300, the
second starting at character index 600. -/
theorem C4_chunk_900 :
    split (List.replicate 900 'A') 800 200 '\n' = [(0, 800), (600, 900)] ∧
    (chunkText (List.replicate 900 'A') (0, 800)).length = 800 ∧
    (chunkText (List.replicate 900 'A') (600, 900)).length = 300 := by decide

/-- C5, counterexample: an unparseable byte stream and a parseable PDF
whose only page text is a single space both return `None` — the two
failure kinds are collapsed to the same value, so the caller cannot
distinguish them. -/
theorem C5_counterexample :
    extract_text_from_pdf none = none ∧
    extract_text_from_pdf (some [Except.ok " "]) = none ∧
    extract_text_from_pdf none = extract_text_from_pdf (some [Except.ok " "]) := by
  decide

/-- C5, amended: `extract_text_from_pdf` returns `None` both for
unparseable input and for parseable input whose concatenated text is
empty after stripping; the two outcomes are the very same value and are
not distinguishable by the caller. -/
theorem C5_failures_collapsed (pages : List Page) (contents : List String)
    (h1 : collectPages pages = some contents)
    (h2 : pyStrip (String.join contents) = "") :
    extract_text_from_pdf (some pages) = none ∧
    extract_text_from_pdf (some pages) = extract_text_from_pdf none := by
  constructor <;> simp [extract_text_from_pdf, h1, h2]

/-- Witness for C5: the whitespace-only one-page document. -/
theorem C5_failures_collapsed_witness :
    extract_text_from_pdf (some [Except.ok " "]) = none ∧
    extract_text_from_pdf (some [Except.ok " "]) = extract_text_from_pdf none :=
  C5_failures_collapsed [Except.ok " "] [" "] (by decide) (by decide)

/-- C6: for a parseable PDF in which no page raises, as long as the
concatenation is not whitespace-only, extraction returns exactly the
concatenation of the per-page texts in page order with no separator
inserted, where a page yielding no text contributes the empty string. -/
theorem C6_page_concatenation (pages : List Page)
    (h1 : ∀ p ∈ pages, p.isOk = true)
    (h2 : pyStrip (String.join (pages.map pageVal)) ≠ "") :
    extract_text_from_pdf (some pages) = some (String.join (pages.map pageVal)) := by
  simp [extract_text_from_pdf, collectPages_all_ok pages h1, h2]

/-- Witness for C6: three pages, the middle one yielding no text,
concatenate to `HelloWorld` with no separator. -/
theorem C6_page_concatenation_witness :
    extract_text_from_pdf (some [Except.ok "Hello", Except.ok "", Except.ok "World"]) =
      some (String.join ([Except.ok "Hello", Except.ok "", Except.ok "World"].map pageVal)) :=
  C6_page_concatenation _ (by decide) (by decide)

/-- C7: from a ready state, a successful query returns the top-4
similarity results in the store's order, each paired with its score and
its text truncated by `truncateContent`: text longer than 300
characters becomes its first 300 characters with an ellipsis appended,
and shorter text is unchanged. -/
theorem C7_success_docs (s : AppState) (env : QueryEnv) (q : String)
    (hr : Ready s) (hq : pyStrip q ≠ "") :
    query_pdf s env (some q) =
      ((QResp.success (pyStrip (env.queryFn (pyStrip q)))
        ((env.search (pyStrip q) 4).map fun d => (d.2, truncateContent d.1)), s),
        [ExtCall.generate, ExtCall.search]) ∧
    (∀ c : String, 300 < c.length →
      truncateContent c = String.mk (c.data.take 300) ++ "...") ∧
    (∀ c : String, c.length ≤ 300 → truncateContent c = c) := by
  refine ⟨?_, ?_, ?_⟩
  · rw [query_pdf_ready_eq s env (some q) hr]; simp [hq]
  · intro c hc; simp [truncateContent, hc]
  · intro c hc; simp [truncateContent, Nat.not_lt.mpr hc]

/-- Witness for C7: a 301-character chunk is truncated to 300 characters
plus the ellipsis, a 5-character chunk is unchanged, scores and order
are preserved. -/
theorem C7_success_docs_witness :
    query_pdf readyState qenvDocs (some " hi ") =
      ((QResp.success "The answer"
        [(7, String.mk (List.replicate 300 'a') ++ "..."), (3, "short")], readyState),
        [ExtCall.generate, ExtCall.search]) :=
  ((C7_success_docs readyState qenvDocs " hi " (by decide) (by decide)).1).trans
    (by decide)

/-- C8: the health check reports one boolean per reported dependency
handle (`vector_store`, `llm`, `embedding`); in the fresh process state
all flags are false, and after a successful initialization — and in any
ready state — all three are true. -/
theorem C8_health_flags (s : AppState) (env : InitEnv) :
    health_check initialState = ⟨false, false, false⟩ ∧
    ((initialize_components s env).1 = true →
      health_check (initialize_components s env).2 = ⟨true, true, true⟩) ∧
    (Ready s → health_check s = ⟨true, true, true⟩) := by
  revert s env; decide

/-- Witness for C8: the fresh state reports all-false; a successful
attempt from it reports all-true; the ready state reports all-true. -/
theorem C8_health_flags_witness :
    health_check initialState = ⟨false, false, false⟩ ∧
    health_check (initialize_components initialState envAllOk).2 = ⟨true, true, true⟩ ∧
    health_check readyState = ⟨true, true, true⟩ :=
  ⟨(C8_health_flags initialState envAllOk).1,
   (C8_health_flags initialState envAllOk).2.1 (by decide),
   (C8_health_flags readyState envAllOk).2.2 (by decide)⟩

/-- C9: `extract_text_from_pdf` is total at its interface: every input —
unparseable streams included — yields either `None` or a non-empty text
string; in the embedded function every exception path ends in the
`None` return of the handler, never in a propagated exception. -/
theorem C9_extract_total (doc : PdfDoc) :
    extract_text_from_pdf doc = none ∨
      ∃ s, extract_text_from_pdf doc = some s ∧ s ≠ "" := by
  match doc with
  | none => exact Or.inl rfl
  | some pages =>
    cases h : collectPages pages with
    | none => exact Or.inl (by simp [extract_text_from_pdf, h])
    | some contents =>
      by_cases ht : pyStrip (String.join contents) = ""
      · exact Or.inl (by simp [extract_text_from_pdf, h, ht])
      · refine Or.inr ⟨String.join contents, by simp [extract_text_from_pdf, h, ht], ?_⟩
        intro he
        exact ht (by rw [he]; decide)

/-- C10: `process_and_store_text` returns the same value `None` both
when the dependency initialization fails and when chunking produces no
chunks; the caller cannot tell the two failures apart from the result
alone. -/
theorem C10_failure_collapse (s : AppState) (env : InitEnv) (text : List Char) :
    (s.vector_store = none → (initialize_components s env).1 = false →
      (process_and_store_text s env text).1.1 = none) ∧
    (split text 800 200 '\n' = [] →
      (process_and_store_text s env text).1.1 = none) := by
  constructor
  · intro hvs hfail
    unfold process_and_store_text
    rw [ensureGuardP_not_ready s env hvs]
    simp [hfail]
  · intro he
    by_cases hvs : s.vector_store = none
    · unfold process_and_store_text
      rw [ensureGuardP_not_ready s env hvs]
      cases hok : (initialize_components s env).1 <;> simp [he, hok]
    · rw [process_store_some_eq s env text hvs]
      simp [he]

/-- Witness for C10: a failed initialization from the fresh state and an
empty chunking from the ready state produce the same `None`. -/
theorem C10_failure_collapse_witness :
    (process_and_store_text initialState envConfigMissing []).1.1 = none ∧
    (process_and_store_text readyState envAllOk []).1.1 = none :=
  ⟨(C10_failure_collapse initialState envConfigMissing []).1 (by decide) (by decide),
   (C10_failure_collapse readyState envAllOk []).2 (by decide)⟩

end PdfQuery
